import Mathlib

/-!
Shallow embedding of the quantifai attribution engine and its companion
components, translated from the TypeScript sources:

* `AIDetectionEngine` (packages/core/src/services/AIDetectionEngine.ts, the
  copy shipped alongside packages/core/src/__tests__/validation.test.ts);
* `BucketAnalyzer` (packages/core/src/utils/BucketAnalyzer.ts);
* `validateAIDetectionConfig` (packages/core/src/utils/validation.ts);
* `ReviewAnalyzer` (packages/extension/src/services/ReviewAnalyzer.ts, the
  copy shipped alongside packages/extension/src/services/MetricsLogger.ts).

Modelling conventions: JavaScript numbers are modelled as `ℚ` (the engine
performs only field arithmetic, comparisons, `Math.min`/`Math.max`; float
rounding and `NaN` are outside the model); optional fields are `Option`;
JavaScript optional chaining `x?.f` with a falsy default is modelled by an
explicit `match`; string truncation `substring(0, n)` is modelled by
`String.take` (character based rather than UTF-16 code-unit based, which
agrees on ASCII content).  The decision-trace argument threaded through the
engine is write-only audit metadata that never influences any returned
value, so it is omitted from the embedding.
-/

inductive ChangeType where
  | insert
  | delete
  | replace
deriving DecidableEq

structure ExternalToolSignature where
  detected : Bool
  toolType : String
  confidence : ℚ
  indicators : List String
deriving DecidableEq

structure EnhancedChangeEvent where
  timestamp : ℚ
  fileUri : String
  changeType : ChangeType
  contentLength : ℚ
  timeSinceLastChange : ℚ
  instantTypingSpeed : ℚ
  burstDetected : Bool
  isCodeBlock : Bool
  isComment : Bool
  languageConstruct : String
  indentationLevel : ℚ
  content : Option String
  externalToolSignature : Option ExternalToolSignature
deriving DecidableEq

structure HeuristicWeights where
  bulkInsertionScore : ℚ
  typingSpeedScore : ℚ
  pastePatternScore : ℚ
  externalToolScore : ℚ
  contentPatternScore : ℚ
  timingAnomalyScore : ℚ
deriving DecidableEq

structure DetectionThresholds where
  bulkInsertionSize : ℚ
  fastTypingSpeed : ℚ
  pasteTimeThreshold : ℚ
  longPauseThreshold : ℚ
  rapidSequenceThreshold : ℚ
deriving DecidableEq

structure ClassificationCutoffs where
  humanThreshold : ℚ
  aiAssistedThreshold : ℚ
  aiGeneratedThreshold : ℚ
deriving DecidableEq

inductive AggregationMethod where
  | average
  | max
  | weighted
deriving DecidableEq

structure BucketConfig where
  intervalMinutes : ℚ
  aggregationMethod : AggregationMethod
  minEventsPerBucket : ℕ
deriving DecidableEq

structure AIDetectionConfig where
  weights : HeuristicWeights
  thresholds : DetectionThresholds
  classification : ClassificationCutoffs
  bucketConfig : BucketConfig
deriving DecidableEq

def DEFAULT_BUCKET_CONFIG : BucketConfig :=
  { intervalMinutes := 15, aggregationMethod := .average, minEventsPerBucket := 1 }

def DEFAULT_AI_DETECTION_CONFIG : AIDetectionConfig :=
  { weights :=
      { bulkInsertionScore := 1/4, typingSpeedScore := 1/5, pastePatternScore := 3/20
        externalToolScore := 1/4, contentPatternScore := 1/10, timingAnomalyScore := 1/20 }
    thresholds :=
      { bulkInsertionSize := 100, fastTypingSpeed := 300, pasteTimeThreshold := 100
        longPauseThreshold := 30000, rapidSequenceThreshold := 100 }
    classification :=
      { humanThreshold := 3/10, aiAssistedThreshold := 3/5, aiGeneratedThreshold := 4/5 }
    bucketConfig := DEFAULT_BUCKET_CONFIG }

/-- Models `change.externalToolSignature?.detected` (undefined is falsy). -/
def sigDetected (c : EnhancedChangeEvent) : Bool :=
  match c.externalToolSignature with
  | some s => s.detected
  | none => false

/-- Models `change.externalToolSignature?.confidence || 0` (undefined and 0 both give 0). -/
def sigConfidence (c : EnhancedChangeEvent) : ℚ :=
  match c.externalToolSignature with
  | some s => s.confidence
  | none => 0

/-- Fraction of insert events whose `contentLength` exceeds
`thresholds.bulkInsertionSize`, clamped to 1. -/
def calculateBulkInsertionScore (config : AIDetectionConfig)
    (changes : List EnhancedChangeEvent) : ℚ :=
  let bulkChanges := changes.filter fun c =>
    decide (c.changeType = .insert) &&
    decide (config.thresholds.bulkInsertionSize < c.contentLength)
  min ((bulkChanges.length : ℚ) / (changes.length : ℚ)) 1

/-- Average of a speed score and a high-speed-frequency score over the events
with strictly positive `instantTypingSpeed`; 0 when there are none. -/
def calculateTypingSpeedScore (config : AIDetectionConfig)
    (changes : List EnhancedChangeEvent) : ℚ :=
  let typingSpeeds :=
    (changes.filter fun c => decide (0 < c.instantTypingSpeed)).map
      (·.instantTypingSpeed)
  if typingSpeeds.isEmpty then 0
  else
    let averageSpeed := typingSpeeds.sum / (typingSpeeds.length : ℚ)
    let highSpeedCount :=
      (typingSpeeds.filter fun s => decide (config.thresholds.fastTypingSpeed < s)).length
    let speedScore := min (averageSpeed / (config.thresholds.fastTypingSpeed * (3/2))) 1
    let frequencyScore := (highSpeedCount : ℚ) / (typingSpeeds.length : ℚ)
    (speedScore + frequencyScore) / 2

/-- Fraction of events that look like a paste: fast, large, insert. -/
def calculatePastePatternScore (config : AIDetectionConfig)
    (changes : List EnhancedChangeEvent) : ℚ :=
  let pasteIndicators := changes.filter fun c =>
    decide (c.timeSinceLastChange < config.thresholds.pasteTimeThreshold) &&
    decide ((50 : ℚ) < c.contentLength) &&
    decide (c.changeType = .insert)
  min ((pasteIndicators.length : ℚ) / max (changes.length : ℚ) 1) 1

/-- Computes `(countDetected / totalEvents) * meanConfidenceOfDetected`, clamped to 1;
0 when no event carries a detected external signature. -/
def calculateExternalToolScore (changes : List EnhancedChangeEvent) : ℚ :=
  let externalSignatures := changes.filter sigDetected
  if externalSignatures.isEmpty then 0
  else
    let averageConfidence :=
      (externalSignatures.map sigConfidence).sum / (externalSignatures.length : ℚ)
    min (((externalSignatures.length : ℚ) / (changes.length : ℚ)) * averageConfidence) 1

/-- Computes `0.4 * codeBlockRatio + 0.4 * structuredRatio + 0.2 * commentRatio`,
clamped to 1. -/
def calculateContentPatternScore (changes : List EnhancedChangeEvent) : ℚ :=
  let codeBlocks := changes.filter (·.isCodeBlock)
  let structuredCode := changes.filter fun c =>
    decide (c.languageConstruct ≠ "unknown") && decide (c.languageConstruct ≠ "")
  let comments := changes.filter (·.isComment)
  let codeBlockRatio := (codeBlocks.length : ℚ) / max (changes.length : ℚ) 1
  let structuredRatio := (structuredCode.length : ℚ) / max (changes.length : ℚ) 1
  let commentRatio := (comments.length : ℚ) / max (changes.length : ℚ) 1
  min (codeBlockRatio * (2/5) + structuredRatio * (2/5) + commentRatio * (1/5)) 1

/-- Fraction of events that are a long pause or a rapid sequence, clamped to 1;
0 with fewer than two events. -/
def calculateTimingAnomalyScore (config : AIDetectionConfig)
    (changes : List EnhancedChangeEvent) : ℚ :=
  if changes.length < 2 then 0
  else
    let longPauses := changes.filter fun c =>
      decide (config.thresholds.longPauseThreshold < c.timeSinceLastChange)
    let rapidSequences := changes.filter fun c =>
      decide (c.timeSinceLastChange < config.thresholds.rapidSequenceThreshold) &&
      decide (0 < c.timeSinceLastChange)
    min (((longPauses.length + rapidSequences.length : ℕ) : ℚ) / (changes.length : ℚ)) 1

structure HeuristicScores where
  bulkInsertionScore : ℚ
  typingSpeedScore : ℚ
  pastePatternScore : ℚ
  externalToolScore : ℚ
  contentPatternScore : ℚ
  timingAnomalyScore : ℚ
deriving DecidableEq

def calculateHeuristicScores (config : AIDetectionConfig)
    (changes : List EnhancedChangeEvent) : HeuristicScores :=
  { bulkInsertionScore := calculateBulkInsertionScore config changes
    typingSpeedScore := calculateTypingSpeedScore config changes
    pastePatternScore := calculatePastePatternScore config changes
    externalToolScore := calculateExternalToolScore changes
    contentPatternScore := calculateContentPatternScore changes
    timingAnomalyScore := calculateTimingAnomalyScore config changes }

structure WeightedScore where
  rawScore : ℚ
  weight : ℚ
  weightedScore : ℚ
deriving DecidableEq

/-- Models `combineScores`: per-heuristic `rawScore * weight`, in the field order of
`HeuristicScores` (the `Object.entries` order of the source). -/
def combineScores (config : AIDetectionConfig) (hs : HeuristicScores) :
    List WeightedScore :=
  [ { rawScore := hs.bulkInsertionScore, weight := config.weights.bulkInsertionScore
      weightedScore := hs.bulkInsertionScore * config.weights.bulkInsertionScore }
  , { rawScore := hs.typingSpeedScore, weight := config.weights.typingSpeedScore
      weightedScore := hs.typingSpeedScore * config.weights.typingSpeedScore }
  , { rawScore := hs.pastePatternScore, weight := config.weights.pastePatternScore
      weightedScore := hs.pastePatternScore * config.weights.pastePatternScore }
  , { rawScore := hs.externalToolScore, weight := config.weights.externalToolScore
      weightedScore := hs.externalToolScore * config.weights.externalToolScore }
  , { rawScore := hs.contentPatternScore, weight := config.weights.contentPatternScore
      weightedScore := hs.contentPatternScore * config.weights.contentPatternScore }
  , { rawScore := hs.timingAnomalyScore, weight := config.weights.timingAnomalyScore
      weightedScore := hs.timingAnomalyScore * config.weights.timingAnomalyScore } ]

def totalWeightedScore (ws : List WeightedScore) : ℚ :=
  (ws.map (·.weightedScore)).sum

inductive AttributionSource where
  | human
  | aiAssisted
  | aiGenerated
  | mixed
deriving DecidableEq

structure Decision where
  source : AttributionSource
  confidence : ℚ
  aiProbability : ℚ
deriving DecidableEq

/-- The threshold ladder of `makeFinalDecision` before the mixed-signal
override (first match wins). -/
def classifyByThresholds (config : AIDetectionConfig) (totalScore : ℚ) : Decision :=
  if totalScore < config.classification.humanThreshold then
    { source := .human, confidence := 1 - totalScore, aiProbability := totalScore }
  else if totalScore < config.classification.aiAssistedThreshold then
    { source := .aiAssisted, confidence := 4/5, aiProbability := totalScore }
  else if totalScore < config.classification.aiGeneratedThreshold then
    { source := .aiGenerated, confidence := totalScore, aiProbability := totalScore }
  else
    { source := .aiGenerated, confidence := totalScore
      aiProbability := min (totalScore + 1/10) 1 }

def hasHumanIndicators (config : AIDetectionConfig)
    (changes : List EnhancedChangeEvent) : Bool :=
  changes.any fun c =>
    decide (0 < c.instantTypingSpeed) &&
    decide (c.instantTypingSpeed < config.thresholds.fastTypingSpeed) &&
    decide (c.contentLength < 50)

def hasAIIndicators (config : AIDetectionConfig)
    (changes : List EnhancedChangeEvent) : Bool :=
  changes.any fun c =>
    sigDetected c ||
    (decide (config.thresholds.bulkInsertionSize < c.contentLength) &&
     decide (c.timeSinceLastChange < config.thresholds.pasteTimeThreshold))

def makeFinalDecision (config : AIDetectionConfig) (weightedScores : List WeightedScore)
    (changes : List EnhancedChangeEvent) : Decision :=
  let totalScore := totalWeightedScore weightedScores
  let base := classifyByThresholds config totalScore
  if hasHumanIndicators config changes && hasAIIndicators config changes &&
      decide (base.source ≠ .human) then
    { source := .mixed, confidence := min base.confidence (4/5)
      aiProbability := base.aiProbability }
  else base

structure BulkChangeEvidence where
  size : ℚ
  timespan : ℚ
  content : String
deriving DecidableEq

structure TypingBurstEvidence where
  speed : ℚ
  duration : ℚ
  content : String
deriving DecidableEq

structure AIEvidence where
  externalToolSignature : Bool
  bulkChangePattern : Bool
  timingAnomalies : Bool
  contentCharacteristics : List String
  bulkChanges : List BulkChangeEvidence
  typingBursts : List TypingBurstEvidence
  externalIndicators : List String
  suspiciousPatterns : List String
deriving DecidableEq

/-- Computes `content.substring(0, n) + (content.length > n ? '...' : '')` with the
`[N chars]` placeholder when `content` is absent. -/
def contentPreview (c : EnhancedChangeEvent) (n : ℕ) : String :=
  match c.content with
  | some s => s.take n ++ (if n < s.length then "..." else "")
  | none => "[" ++ toString c.contentLength ++ " chars]"

def extractContentCharacteristics (changes : List EnhancedChangeEvent) : List String :=
  (if changes.any (·.isCodeBlock) then ["contains-code-blocks"] else []) ++
  (if changes.any (·.isComment) then ["contains-comments"] else []) ++
  (if changes.any (fun c => decide (c.languageConstruct = "function")) then
    ["contains-functions"] else []) ++
  (if changes.any (fun c => decide (c.languageConstruct = "class")) then
    ["contains-classes"] else [])

/-- Models `change.content?.includes('\n')` (undefined is falsy). -/
def contentHasNewline (c : EnhancedChangeEvent) : Bool :=
  match c.content with
  | some s => s.contains '\n'
  | none => false

def identifySuspiciousPatterns (config : AIDetectionConfig)
    (changes : List EnhancedChangeEvent) : List String :=
  (if changes.any (fun c =>
      decide (config.thresholds.bulkInsertionSize < c.contentLength) &&
      decide (c.timeSinceLastChange < config.thresholds.pasteTimeThreshold)) then
    ["rapid-large-insertion"] else []) ++
  (if changes.any (fun c =>
      decide (config.thresholds.bulkInsertionSize < c.contentLength) &&
      contentHasNewline c &&
      decide (0 < c.indentationLevel)) then
    ["formatted-bulk-code"] else [])

def extractEvidence (config : AIDetectionConfig)
    (changes : List EnhancedChangeEvent) : AIEvidence :=
  let bulkChanges :=
    (changes.filter fun c =>
        decide (config.thresholds.bulkInsertionSize < c.contentLength)).map
      fun c =>
        { size := c.contentLength, timespan := c.timeSinceLastChange
          content := contentPreview c 100 : BulkChangeEvidence }
  let typingBursts :=
    (changes.filter (·.burstDetected)).map fun c =>
      { speed := c.instantTypingSpeed, duration := c.timeSinceLastChange
        content := contentPreview c 50 : TypingBurstEvidence }
  let externalIndicators :=
    (changes.filter sigDetected).flatMap fun c =>
      match c.externalToolSignature with
      | some s => s.indicators
      | none => []
  { externalToolSignature := changes.any sigDetected
    bulkChangePattern := decide (0 < bulkChanges.length)
    timingAnomalies := changes.any fun c =>
      decide (config.thresholds.longPauseThreshold < c.timeSinceLastChange) ||
      (decide (c.timeSinceLastChange < config.thresholds.rapidSequenceThreshold) &&
       decide (0 < c.timeSinceLastChange))
    contentCharacteristics := extractContentCharacteristics changes
    bulkChanges := bulkChanges
    typingBursts := typingBursts
    externalIndicators := externalIndicators
    suspiciousPatterns := identifySuspiciousPatterns config changes }

structure ExternalChangeEvent where
  timestamp : ℚ
  fileUri : String
  changeType : String
  contentLength : ℚ
  detectedTool : String
  confidence : ℚ
deriving DecidableEq

structure TimeGap where
  startTime : ℚ
  endTime : ℚ
  duration : ℚ
  likelyActivity : String
deriving DecidableEq

structure AITimeline where
  vsCodeEvents : List EnhancedChangeEvent
  externalEvents : List ExternalChangeEvent
  gaps : List TimeGap
deriving DecidableEq

/-- The `ExternalChangeEvent` projection of a detected event; the tool name
falls back to "unknown" exactly when `toolType` is falsy (absent or empty). -/
def projectExternalEvent (c : EnhancedChangeEvent) : ExternalChangeEvent :=
  { timestamp := c.timestamp
    fileUri := c.fileUri
    changeType := if (200 : ℚ) < c.contentLength then "bulk-insert" else "structured-edit"
    contentLength := c.contentLength
    detectedTool :=
      match c.externalToolSignature with
      | some s => if s.toolType = "" then "unknown" else s.toolType
      | none => "unknown"
    confidence := sigConfidence c }

/-- Consecutive-pair gap scan of `extractTimeline` (10s threshold, 300s
extended-break cutoff). -/
def detectGaps (changes : List EnhancedChangeEvent) : List TimeGap :=
  (changes.zip changes.tail).flatMap fun p =>
    let gap := p.2.timestamp - p.1.timestamp
    if (10000 : ℚ) < gap then
      [{ startTime := p.1.timestamp, endTime := p.2.timestamp, duration := gap
         likelyActivity := if (300000 : ℚ) < gap then "extended-break" else "thinking-pause" }]
    else []

def extractTimeline (changes : List EnhancedChangeEvent) : AITimeline :=
  { vsCodeEvents := changes
    externalEvents := (changes.filter sigDetected).map projectExternalEvent
    gaps := detectGaps changes }

structure AIAttribution where
  source : AttributionSource
  confidence : ℚ
  aiProbability : ℚ
  evidence : AIEvidence
  timeline : AITimeline
deriving DecidableEq

def createEmptyAttribution : AIAttribution :=
  { source := .human
    confidence := 0
    aiProbability := 0
    evidence :=
      { externalToolSignature := false, bulkChangePattern := false
        timingAnomalies := false, contentCharacteristics := []
        bulkChanges := [], typingBursts := [], externalIndicators := []
        suspiciousPatterns := [] }
    timeline := { vsCodeEvents := [], externalEvents := [], gaps := [] } }

/-- Models `AIDetectionEngine.analyze` as a pure function of the config snapshot and
the event list. -/
def analyze (config : AIDetectionConfig)
    (changes : List EnhancedChangeEvent) : AIAttribution :=
  if changes.isEmpty then createEmptyAttribution
  else
    let heuristicScores := calculateHeuristicScores config changes
    let weightedScores := combineScores config heuristicScores
    let d := makeFinalDecision config weightedScores changes
    { source := d.source, confidence := d.confidence, aiProbability := d.aiProbability
      evidence := extractEvidence config changes
      timeline := extractTimeline changes }

structure TimeBucket where
  startTime : ℚ
  endTime : ℚ
  events : List EnhancedChangeEvent
  aiProbability : Option ℚ
  heuristicScores : Option HeuristicScores
  eventCount : ℕ
  isEmpty : Bool
  attribution : Option AIAttribution
deriving DecidableEq

/-- Models `BucketAnalyzer.createBuckets`.  The source iterates
`for (let time = startTime; time < endTime; time += intervalMs)`; for
`intervalMs > 0` the iterations are exactly `time = startTime + i * intervalMs`
for the naturals `i` with `startTime + i * intervalMs < endTime`, that is
`i < ⌈(endTime - startTime) / intervalMs⌉` (by `Nat.lt_ceil`), which is the
`List.range` bound used here. -/
def createBuckets (events : List EnhancedChangeEvent)
    (config : BucketConfig) : List TimeBucket :=
  match events with
  | [] => []
  | e0 :: rest =>
    let intervalMs := config.intervalMinutes * 60 * 1000
    let startTime := e0.timestamp
    let endTime := (rest.getLastD e0).timestamp
    (List.range ⌈(endTime - startTime) / intervalMs⌉₊).map fun i =>
      let time := startTime + i * intervalMs
      let bucketEvents := (e0 :: rest).filter fun c =>
        decide (time ≤ c.timestamp) && decide (c.timestamp < time + intervalMs)
      { startTime := time
        endTime := time + intervalMs
        events := bucketEvents
        eventCount := bucketEvents.length
        isEmpty := decide (bucketEvents.length < config.minEventsPerBucket)
        aiProbability := none
        heuristicScores := none
        attribution := none }

/-!
Dynamic-value model for `validateAIDetectionConfig`, which in the source is a
runtime type guard over an arbitrary parsed JSON value.  `JsValue` covers the
value shapes reachable from JSON parsing; property access on a non-object and
access to a missing key both yield `none` (JavaScript `undefined`), and
`typeof v === 'object'` holds exactly for `jnull` and `jobj`, with the
guard's separate `=== null` test ruling `jnull` out.
-/

inductive JsValue where
  | jnull
  | jbool (b : Bool)
  | jnum (q : ℚ)
  | jstr (s : String)
  | jobj (fields : List (String × JsValue))

def JsValue.getField : JsValue → String → Option JsValue
  | .jobj fields, k => fields.lookup k
  | _, _ => none

/-- Models `typeof v === 'object' && v !== null`. -/
def JsValue.isNonNullObject : JsValue → Bool
  | .jobj _ => true
  | _ => false

def optIsNonNullObject : Option JsValue → Bool
  | some v => v.isNonNullObject
  | none => false

def optField (o : Option JsValue) (k : String) : Option JsValue :=
  o.bind (·.getField k)

/-- Models `typeof x === 'number' && !(x < 0) && !(x > 1)` for a property-access
result. -/
def optNumIn01 : Option JsValue → Bool
  | some (.jnum q) => decide (0 ≤ q) && decide (q ≤ 1)
  | _ => false

/-- Models `typeof x === 'number' && !(x < 0)` for a property-access result. -/
def optNumNonneg : Option JsValue → Bool
  | some (.jnum q) => decide (0 ≤ q)
  | _ => false

/-- JavaScript `a >= b` on two property-access results; comparisons against a
non-number are false (NaN semantics), though the validator only reaches this
after both sides passed the number checks. -/
def optNumGE : Option JsValue → Option JsValue → Bool
  | some (.jnum a), some (.jnum b) => decide (b ≤ a)
  | _, _ => false

def requiredWeightKeys : List String :=
  ["bulkInsertionScore", "typingSpeedScore", "pastePatternScore",
   "externalToolScore", "contentPatternScore", "timingAnomalyScore"]

def requiredThresholdKeys : List String :=
  ["bulkInsertionSize", "fastTypingSpeed", "pasteTimeThreshold",
   "longPauseThreshold", "rapidSequenceThreshold"]

def requiredClassificationKeys : List String :=
  ["humanThreshold", "aiAssistedThreshold", "aiGeneratedThreshold"]

/-- Models `validateAIDetectionConfig` from packages/core/src/utils/validation.ts,
with each early `return false` rendered as a short-circuiting conjunction in
the order of the source. -/
def validateAIDetectionConfig (config : JsValue) : Bool :=
  config.isNonNullObject &&
  (let weights := config.getField "weights"
   optIsNonNullObject weights &&
   requiredWeightKeys.all (fun k => optNumIn01 (optField weights k))) &&
  (let thresholds := config.getField "thresholds"
   optIsNonNullObject thresholds &&
   requiredThresholdKeys.all (fun k => optNumNonneg (optField thresholds k))) &&
  (let classification := config.getField "classification"
   optIsNonNullObject classification &&
   requiredClassificationKeys.all (fun k => optNumIn01 (optField classification k)) &&
   !(optNumGE (optField classification "humanThreshold")
       (optField classification "aiAssistedThreshold") ||
     optNumGE (optField classification "aiAssistedThreshold")
       (optField classification "aiGeneratedThreshold")))

def getPath (v : JsValue) : List String → Option JsValue
  | [] => some v
  | k :: ks =>
    match v.getField k with
    | some w => getPath w ks
    | none => none

/-- Modelled from the spec: the acceptance condition as the claim states it —
the value is a non-null object, its six heuristic weights are numbers in
[0,1], its five thresholds are numbers ≥ 0, and its three classification
cutoffs are numbers in [0,1] in strictly increasing order. -/
def configClaimAccepts (v : JsValue) : Bool :=
  v.isNonNullObject &&
  requiredWeightKeys.all (fun k => optNumIn01 (getPath v ["weights", k])) &&
  requiredThresholdKeys.all (fun k => optNumNonneg (getPath v ["thresholds", k])) &&
  requiredClassificationKeys.all (fun k => optNumIn01 (getPath v ["classification", k])) &&
  (match getPath v ["classification", "humanThreshold"],
        getPath v ["classification", "aiAssistedThreshold"],
        getPath v ["classification", "aiGeneratedThreshold"] with
   | some (.jnum h), some (.jnum a), some (.jnum g) => decide (h < a) && decide (a < g)
   | _, _, _ => false)

/-!
`ReviewAnalyzer` (review quality scorer).  `assessQuality` is pure in the
returned assessment: the `Date.now()` / uuid / logging calls of the source
only feed the side-channel metrics log, never the returned value.
-/

structure TimeMetrics where
  totalDevelopmentTime : ℚ
  timeBeforeFirstCommit : ℚ
  numberOfEditSessions : ℕ
  averageSessionLength : ℚ
  longestPauseBetweenEdits : ℚ
  editingVelocityOverTime : List ℕ
deriving DecidableEq

structure EditSession where
  start : ℚ
  stop : ℚ
  duration : ℚ
  changeCount : ℕ
deriving DecidableEq

/-- Loop body of `identifyEditSessions`: `prev` is the previous event's
timestamp, the accumulator fields mirror `sessionStart`/`sessionEnd`/
`sessionChangeCount`. -/
def editSessionsGo (gapThreshold : ℚ) (prev sessionStart sessionEnd : ℚ)
    (count : ℕ) : List EnhancedChangeEvent → List EditSession
  | [] => [{ start := sessionStart, stop := sessionEnd
             duration := sessionEnd - sessionStart, changeCount := count }]
  | c :: rest =>
    if gapThreshold < c.timestamp - prev then
      { start := sessionStart, stop := sessionEnd
        duration := sessionEnd - sessionStart, changeCount := count } ::
        editSessionsGo gapThreshold c.timestamp c.timestamp c.timestamp 1 rest
    else
      editSessionsGo gapThreshold c.timestamp sessionStart c.timestamp (count + 1) rest

def identifyEditSessions (changes : List EnhancedChangeEvent)
    (gapThreshold : ℚ) : List EditSession :=
  match changes with
  | [] => []
  | c0 :: rest => editSessionsGo gapThreshold c0.timestamp c0.timestamp c0.timestamp 1 rest

/-- Edit counts per 5-minute window; the `windowStart < endTime` loop is the
same ceiling-bounded iteration as in `createBuckets`. -/
def calculateEditingVelocity (changes : List EnhancedChangeEvent) : List ℕ :=
  match changes with
  | [] => []
  | c0 :: rest =>
    let startTime := c0.timestamp
    let endTime := (rest.getLastD c0).timestamp
    (List.range ⌈(endTime - startTime) / 300000⌉₊).map fun i =>
      let windowStart := startTime + i * 300000
      ((c0 :: rest).filter fun c =>
        decide (windowStart ≤ c.timestamp) &&
        decide (c.timestamp < windowStart + 300000)).length

def listMaxQ : List ℚ → ℚ
  | [] => 0
  | x :: xs => xs.foldl max x

def calculateTimeMetrics (changes : List EnhancedChangeEvent)
    (commitTime : Option ℚ) : TimeMetrics :=
  match changes with
  | [] =>
    { totalDevelopmentTime := 0, timeBeforeFirstCommit := 0
      numberOfEditSessions := 0, averageSessionLength := 0
      longestPauseBetweenEdits := 0, editingVelocityOverTime := [] }
  | c0 :: rest =>
    let firstChange := c0.timestamp
    let lastChange := (rest.getLastD c0).timestamp
    let sessions := identifyEditSessions (c0 :: rest) 1800000
    let pauses := ((c0 :: rest).zip rest).map fun p => p.2.timestamp - p.1.timestamp
    { totalDevelopmentTime := lastChange - firstChange
      timeBeforeFirstCommit :=
        match commitTime with
        | some t => t - lastChange
        | none => 0
      numberOfEditSessions := sessions.length
      averageSessionLength :=
        if sessions.isEmpty then 0
        else (sessions.map (·.duration)).sum / (sessions.length : ℚ)
      longestPauseBetweenEdits := listMaxQ pauses
      editingVelocityOverTime := calculateEditingVelocity (c0 :: rest) }

structure EditPatterns where
  incrementalEdits : ℕ
  bulkReplacements : ℕ
  refinementEdits : ℕ
  commentAdditions : ℕ
  variableRenames : ℕ
  structuralChanges : ℕ
deriving DecidableEq

/-- Models `/\b[a-zA-Z_][a-zA-Z0-9_]*\b/.test(s)`: some letter or underscore occurs
at a word boundary (start of string or right after a non-word character); the
trailing boundary is then always attainable at the end of the maximal word
run. -/
def identScanGo : Bool → List Char → Bool
  | _, [] => false
  | atBoundary, c :: rest =>
    if (c.isAlpha || c == '_') && atBoundary then true
    else identScanGo (!(c.isAlphanum || c == '_')) rest

def testIdentifierRegex (s : String) : Bool :=
  identScanGo true s.toList

def analyzeEditPatterns (changes : List EnhancedChangeEvent) : EditPatterns :=
  { incrementalEdits :=
      (changes.filter fun c =>
        decide (c.contentLength < 50) && decide (c.changeType ≠ .delete)).length
    bulkReplacements :=
      (changes.filter fun c =>
        decide (c.changeType = .replace) && decide ((100 : ℚ) < c.contentLength)).length
    refinementEdits :=
      (changes.filter fun c =>
        decide ((10000 : ℚ) < c.timeSinceLastChange) &&
        decide (c.contentLength < 100)).length
    commentAdditions := (changes.filter (·.isComment)).length
    variableRenames :=
      (changes.filter fun c =>
        decide (c.changeType = .replace) && decide (c.contentLength < 50) &&
        (match c.content with
         | some s => testIdentifierRegex s
         | none => false)).length
    structuralChanges :=
      (changes.filter fun c =>
        decide (c.languageConstruct ≠ "unknown") &&
        decide (c.changeType = .replace)).length }

structure ReviewIndicators where
  multipleEditSessions : Bool
  pausesForReflection : Bool
  incrementalRefinement : Bool
  commentaryAdded : Bool
  codeRestructuring : Bool
  testingEvidence : Bool
deriving DecidableEq

/-- Models `s.includes(pat)` via `String.splitOn`. -/
def containsSub (s pat : String) : Bool :=
  decide (1 < (s.splitOn pat).length)

def identifyReviewIndicators (changes : List EnhancedChangeEvent)
    (timeMetrics : TimeMetrics) : ReviewIndicators :=
  { multipleEditSessions := decide (1 < timeMetrics.numberOfEditSessions)
    pausesForReflection :=
      changes.any fun c => decide ((60000 : ℚ) < c.timeSinceLastChange)
    incrementalRefinement :=
      decide (2 < ((changes.zip changes.tail).filter fun p =>
        decide ((5000 : ℚ) < p.2.timeSinceLastChange) &&
        decide (p.2.contentLength < p.1.contentLength)).length)
    commentaryAdded := changes.any (·.isComment)
    codeRestructuring :=
      changes.any fun c =>
        decide (c.changeType = .replace) && decide ((50 : ℚ) < c.contentLength) &&
        decide (c.languageConstruct ≠ "unknown")
    testingEvidence :=
      changes.any fun c =>
        match c.content with
        | some s =>
          containsSub s.toLower "test" || containsSub s.toLower "spec" ||
          containsSub s.toLower "assert"
        | none => false }

structure ReviewScoreBreakdown where
  timeInvestment : ℚ
  iterationCount : ℕ
  externalToolUsage : ℚ
  humanRefinement : ℕ
  timeInvestmentScore : ℚ
  iterationScore : ℚ
  refinementScore : ℚ
  thoughtfulnessScore : ℚ
  finalScore : ℚ
deriving DecidableEq

def calculateScoreBreakdown (timeMetrics : TimeMetrics)
    (editPatterns : EditPatterns) (reviewIndicators : ReviewIndicators) :
    ReviewScoreBreakdown :=
  let timeInvestmentScore : ℚ :=
    (if (1800000 : ℚ) < timeMetrics.totalDevelopmentTime then 1 else 0) +
    (if (7200000 : ℚ) < timeMetrics.totalDevelopmentTime then 1 else 0) +
    (if (600000 : ℚ) < timeMetrics.timeBeforeFirstCommit then 1 else 0)
  let iterationScore : ℚ :=
    (if reviewIndicators.multipleEditSessions then 1 else 0) +
    (if 2 < editPatterns.refinementEdits then 1 else 0) +
    (if reviewIndicators.incrementalRefinement then 1 else 0)
  let refinementScore : ℚ :=
    (if 0 < editPatterns.commentAdditions then 1/2 else 0) +
    (if 0 < editPatterns.variableRenames then 1/2 else 0) +
    (if reviewIndicators.codeRestructuring then 1/2 else 0) +
    (if reviewIndicators.testingEvidence then 1/2 else 0)
  let thoughtfulnessScore : ℚ :=
    (if reviewIndicators.pausesForReflection then 1 else 0) +
    (if (300000 : ℚ) < timeMetrics.longestPauseBetweenEdits then 1 else 0)
  { timeInvestment := timeMetrics.totalDevelopmentTime
    iterationCount := timeMetrics.numberOfEditSessions
    externalToolUsage := 0
    humanRefinement := editPatterns.refinementEdits
    timeInvestmentScore := timeInvestmentScore
    iterationScore := iterationScore
    refinementScore := refinementScore
    thoughtfulnessScore := thoughtfulnessScore
    finalScore := timeInvestmentScore + iterationScore + refinementScore + thoughtfulnessScore }

inductive QualityLevel where
  | immediateCommit
  | lightReview
  | thoroughReview
  | extensiveReview
deriving DecidableEq

def determineQualityLevel (score : ℚ) : QualityLevel :=
  if score ≤ 2 then .immediateCommit
  else if score ≤ 5 then .lightReview
  else if score ≤ 8 then .thoroughReview
  else .extensiveReview

def calculateReviewConfidence (changes : List EnhancedChangeEvent)
    (scoreBreakdown : ReviewScoreBreakdown) : ℚ :=
  min ((7/10 : ℚ) +
    (if 10 < changes.length then 1/10 else 0) +
    (if 50 < changes.length then 1/10 else 0) +
    (if scoreBreakdown.finalScore ≤ 2 ∨ 8 ≤ scoreBreakdown.finalScore then 1/10 else 0)) 1

structure EditTimelineEntry where
  timestamp : ℚ
  editType : String
  significance : ℕ
deriving DecidableEq

structure PauseAnalysisEntry where
  duration : ℚ
  context : String
  likelyActivity : String
deriving DecidableEq

structure ReviewEvidence where
  editTimeline : List EditTimelineEntry
  pauseAnalysis : List PauseAnalysisEntry
  refinementExamples : List String
deriving DecidableEq

def changeTypeStr : ChangeType → String
  | .insert => "insert"
  | .delete => "delete"
  | .replace => "replace"

/-- One refinement example per qualifying event; `change.content &&` makes an
absent or empty content fail the filter. -/
def refinementExampleOf (c : EnhancedChangeEvent) : List String :=
  match c.content with
  | some s =>
    if decide ((10000 : ℚ) < c.timeSinceLastChange) &&
        decide (c.contentLength < 100) && !s.isEmpty then [s.take 50] else []
  | none => []

def reviewExtractEvidence (changes : List EnhancedChangeEvent) : ReviewEvidence :=
  { editTimeline := changes.map fun c =>
      { timestamp := c.timestamp
        editType := changeTypeStr c.changeType ++ "-" ++ c.languageConstruct
        significance :=
          if (100 : ℚ) < c.contentLength then 3
          else if (20 : ℚ) < c.contentLength then 2 else 1 }
    pauseAnalysis := (changes.zip changes.tail).flatMap fun p =>
      let pause := p.2.timestamp - p.1.timestamp
      if (30000 : ℚ) < pause then
        [{ duration := pause, context := p.1.languageConstruct
           likelyActivity :=
             if (300000 : ℚ) < pause then "extended-break"
             else if (60000 : ℚ) < pause then "thinking-reviewing"
             else "brief-pause" }]
      else []
    refinementExamples := (changes.flatMap refinementExampleOf).take 5 }

structure ReviewPatterns where
  immediateCommit : Bool
  multiSessionReview : Bool
  crossToolCollaboration : Bool
  incrementalRefinement : Bool
  multipleEditSessions : Bool
  pausesForReflection : Bool
  commentaryAdded : Bool
  codeRestructuring : Bool
  testingEvidence : Bool
deriving DecidableEq

def createPatterns (reviewIndicators : ReviewIndicators)
    (timeMetrics : TimeMetrics) : ReviewPatterns :=
  { immediateCommit := decide (timeMetrics.timeBeforeFirstCommit < 300000)
    multiSessionReview := reviewIndicators.multipleEditSessions
    crossToolCollaboration := false
    incrementalRefinement := reviewIndicators.incrementalRefinement
    multipleEditSessions := reviewIndicators.multipleEditSessions
    pausesForReflection := reviewIndicators.pausesForReflection
    commentaryAdded := reviewIndicators.commentaryAdded
    codeRestructuring := reviewIndicators.codeRestructuring
    testingEvidence := reviewIndicators.testingEvidence }

structure ReviewQualityAssessment where
  overallScore : ℚ
  breakdown : ReviewScoreBreakdown
  patterns : ReviewPatterns
  evidence : ReviewEvidence
  qualityLevel : QualityLevel
  confidence : ℚ
deriving DecidableEq

def createEmptyAssessment : ReviewQualityAssessment :=
  { overallScore := 0
    breakdown :=
      { timeInvestment := 0, iterationCount := 0, externalToolUsage := 0
        humanRefinement := 0, timeInvestmentScore := 0, iterationScore := 0
        refinementScore := 0, thoughtfulnessScore := 0, finalScore := 0 }
    patterns :=
      { immediateCommit := true, multiSessionReview := false
        crossToolCollaboration := false, incrementalRefinement := false
        multipleEditSessions := false, pausesForReflection := false
        commentaryAdded := false, codeRestructuring := false
        testingEvidence := false }
    evidence := { editTimeline := [], pauseAnalysis := [], refinementExamples := [] }
    qualityLevel := .immediateCommit
    confidence := 1 }

/-- Models `ReviewAnalyzer.assessQuality` as a pure function of the events and the
optional commit timestamp. -/
def assessQuality (changes : List EnhancedChangeEvent)
    (commitTime : Option ℚ) : ReviewQualityAssessment :=
  if changes.isEmpty then createEmptyAssessment
  else
    let timeMetrics := calculateTimeMetrics changes commitTime
    let editPatterns := analyzeEditPatterns changes
    let reviewIndicators := identifyReviewIndicators changes timeMetrics
    let scoreBreakdown := calculateScoreBreakdown timeMetrics editPatterns reviewIndicators
    { overallScore := scoreBreakdown.finalScore
      breakdown := scoreBreakdown
      patterns := createPatterns reviewIndicators timeMetrics
      evidence := reviewExtractEvidence changes
      qualityLevel := determineQualityLevel scoreBreakdown.finalScore
      confidence := calculateReviewConfidence changes scoreBreakdown }


/-!
Derived definitions and concrete inputs used by the theorems below.
-/

/-- The total score that `makeFinalDecision` computes from the per-heuristic
weighted scores of an event list. -/
def engineTotalScore (config : AIDetectionConfig)
    (changes : List EnhancedChangeEvent) : ℚ :=
  totalWeightedScore (combineScores config (calculateHeuristicScores config changes))

def listMeanQ (l : List ℚ) : ℚ := l.sum / (l.length : ℚ)

/-- Modelled from the spec: the claimed reference definition of the
typing-speed heuristic — S is the list of strictly positive instant typing
speeds; score 0 when S is empty, else the average of
`min(mean(S) / (fastTypingSpeed * 1.5), 1)` and the fraction of members of S
strictly above `fastTypingSpeed`. -/
def typingSpeedScoreRef (config : AIDetectionConfig)
    (changes : List EnhancedChangeEvent) : ℚ :=
  let S := (changes.filter fun c => decide (0 < c.instantTypingSpeed)).map
    (·.instantTypingSpeed)
  if S = [] then 0
  else
    let speedScore := min (listMeanQ S / (config.thresholds.fastTypingSpeed * (3/2))) 1
    let frequencyScore :=
      ((S.countP fun s => decide (config.thresholds.fastTypingSpeed < s)) : ℚ) /
        (S.length : ℚ)
    (speedScore + frequencyScore) / 2

/-- A quiet event exercising none of the heuristics. -/
def baseEvent : EnhancedChangeEvent :=
  { timestamp := 0, fileUri := "file.ts", changeType := .delete, contentLength := 10
    timeSinceLastChange := 5000, instantTypingSpeed := 0, burstDetected := false
    isCodeBlock := false, isComment := false, languageConstruct := "unknown"
    indentationLevel := 0, content := none, externalToolSignature := none }

def claudeSig : ExternalToolSignature :=
  { detected := true, toolType := "claude-code", confidence := 1, indicators := ["speed"] }

/-- Bulk insert with a detected external signature (bulk and external
heuristics saturate, the rest stay 0). -/
def assistedEvent (ts : ℚ) : EnhancedChangeEvent :=
  { baseEvent with timestamp := ts, changeType := .insert, contentLength := 200
                   timeSinceLastChange := 500, externalToolSignature := some claudeSig }

/-- Extends `assistedEvent` with saturated typing speed. -/
def generatedEvent (ts : ℚ) : EnhancedChangeEvent :=
  { assistedEvent ts with instantTypingSpeed := 450 }

/-- Extends `generatedEvent` with a paste-fast latency (also a rapid sequence). -/
def pasteEvent (ts : ℚ) : EnhancedChangeEvent :=
  { generatedEvent ts with timeSinceLastChange := 50 }

/-- Saturates all six heuristics at raw score 1. -/
def saturatedEvent (ts : ℚ) : EnhancedChangeEvent :=
  { pasteEvent ts with instantTypingSpeed := 1000, isCodeBlock := true
                       isComment := true, languageConstruct := "function" }

/-- The default config with the timing-anomaly weight raised from 0.05 to
0.35, so the six weights sum to 1.3. -/
def driftedConfig : AIDetectionConfig :=
  { DEFAULT_AI_DETECTION_CONFIG with
      weights := { DEFAULT_AI_DETECTION_CONFIG.weights with timingAnomalyScore := 7/20 } }

/-- An event exactly one default bucket width (15 min = 900000 ms) after
`baseEvent`. -/
def boundaryEvent : EnhancedChangeEvent :=
  { baseEvent with timestamp := 900000 }

/-- The default config with only the bulk-insertion weight raised. -/
def bumpedConfig : AIDetectionConfig :=
  { DEFAULT_AI_DETECTION_CONFIG with
      weights := { DEFAULT_AI_DETECTION_CONFIG.weights with bulkInsertionScore := 1/2 } }

/-- Six raw heuristic scores fixed at 1/2. -/
def halfScores : HeuristicScores :=
  { bulkInsertionScore := 1/2, typingSpeedScore := 1/2, pastePatternScore := 1/2
    externalToolScore := 1/2, contentPatternScore := 1/2, timingAnomalyScore := 1/2 }

/-!
Theorems.
-/

/-- Unfolding `analyze` on a non-empty list. -/
theorem analyze_cons (config : AIDetectionConfig) (c : EnhancedChangeEvent)
    (cs : List EnhancedChangeEvent) :
    analyze config (c :: cs) =
      { source :=
          (makeFinalDecision config
            (combineScores config (calculateHeuristicScores config (c :: cs))) (c :: cs)).source
        confidence :=
          (makeFinalDecision config
            (combineScores config (calculateHeuristicScores config (c :: cs))) (c :: cs)).confidence
        aiProbability :=
          (makeFinalDecision config
            (combineScores config (calculateHeuristicScores config (c :: cs))) (c :: cs)).aiProbability
        evidence := extractEvidence config (c :: cs)
        timeline := extractTimeline (c :: cs) } := rfl

theorem engineTotalScore_saturated :
    engineTotalScore driftedConfig [saturatedEvent 0, saturatedEvent 1000] = 13/10 := by
  have h1 : ¬ (("function" : String) = "unknown") := by decide
  have h2 : ¬ (("function" : String) = "") := by decide
  norm_num [h1, h2, engineTotalScore, totalWeightedScore, combineScores, calculateHeuristicScores,
    calculateBulkInsertionScore, calculateTypingSpeedScore, calculatePastePatternScore,
    calculateExternalToolScore, calculateContentPatternScore, calculateTimingAnomalyScore,
    sigDetected, sigConfidence, driftedConfig, DEFAULT_AI_DETECTION_CONFIG,
    saturatedEvent, pasteEvent, generatedEvent, assistedEvent, baseEvent, claudeSig,
    List.filter_cons, List.filter_nil]

theorem decision_saturated :
    makeFinalDecision driftedConfig
      (combineScores driftedConfig
        (calculateHeuristicScores driftedConfig [saturatedEvent 0, saturatedEvent 1000]))
      [saturatedEvent 0, saturatedEvent 1000] =
      { source := .aiGenerated, confidence := 13/10, aiProbability := 1 } := by
  have ht := engineTotalScore_saturated
  unfold engineTotalScore at ht
  have hhuman : hasHumanIndicators driftedConfig [saturatedEvent 0, saturatedEvent 1000] = false := by
    norm_num [hasHumanIndicators, driftedConfig, DEFAULT_AI_DETECTION_CONFIG,
      saturatedEvent, pasteEvent, generatedEvent, assistedEvent, baseEvent]
  unfold makeFinalDecision
  rw [ht, hhuman]
  norm_num [classifyByThresholds, driftedConfig, DEFAULT_AI_DETECTION_CONFIG]

/-- Claim C1 (refuted, code bug): with non-negative weights summing to 1.3 the
spec claims `analyze` still clamps both `confidence` and `aiProbability` into
[0,1]; but on two events saturating every heuristic, `totalScore = 1.3` lands
in the top classification branch, which assigns `confidence = totalScore`
with no clamp, so `analyze` returns `confidence = 1.3 > 1` (the returned
`aiProbability` is `min(totalScore + 0.1, 1) = 1`). -/
theorem analyze_confidence_exceeds_one_on_drifted_weights :
    (analyze driftedConfig [saturatedEvent 0, saturatedEvent 1000]).confidence = 13/10 ∧
    ¬ ((analyze driftedConfig [saturatedEvent 0, saturatedEvent 1000]).confidence ≤ 1) ∧
    (analyze driftedConfig [saturatedEvent 0, saturatedEvent 1000]).aiProbability = 1 := by
  rw [analyze_cons, decision_saturated]
  norm_num

/-- Claim C2 (refuted, code bug): `createBuckets` is claimed to place every
event of a non-decreasing list in exactly one half-open bucket, including a
single-event list and an event falling exactly on a window boundary.  The
`time < endTime` loop bound drops both: a single event yields no buckets at
all, and when the span is an exact multiple of the interval the last event
(here at 900000 ms = one 15-minute interval) lies inside no bucket, so the
union of all bucket contents misses it. -/
theorem createBuckets_drops_boundary_event :
    createBuckets [baseEvent] DEFAULT_BUCKET_CONFIG = [] ∧
    ((createBuckets [baseEvent, boundaryEvent] DEFAULT_BUCKET_CONFIG).map
      (·.events)).flatten = [baseEvent] := by
  constructor
  · norm_num [createBuckets, DEFAULT_BUCKET_CONFIG, baseEvent, List.getLastD]
  · norm_num [createBuckets, DEFAULT_BUCKET_CONFIG, baseEvent, boundaryEvent,
      List.getLastD, List.range_succ, List.filter_cons, List.filter_nil]

/-- Claim C6: `analyze` on the empty event list returns the canonical human
attribution: confidence 0, aiProbability 0, all evidence arrays empty, all
evidence flags false, and an empty timeline. -/
theorem analyze_empty_canonical (config : AIDetectionConfig) :
    analyze config [] =
      { source := .human, confidence := 0, aiProbability := 0
        evidence :=
          { externalToolSignature := false, bulkChangePattern := false
            timingAnomalies := false, contentCharacteristics := []
            bulkChanges := [], typingBursts := [], externalIndicators := []
            suspiciousPatterns := [] }
        timeline := { vsCodeEvents := [], externalEvents := [], gaps := [] } } := rfl

/-- Claim C7: `assessQuality` on the empty event list returns overallScore 0,
qualityLevel immediate-commit and confidence 1, with every score-breakdown
component 0 and every pattern flag false except `immediateCommit`. -/
theorem assessQuality_empty_canonical (commitTime : Option ℚ) :
    assessQuality [] commitTime =
      { overallScore := 0
        breakdown :=
          { timeInvestment := 0, iterationCount := 0, externalToolUsage := 0
            humanRefinement := 0, timeInvestmentScore := 0, iterationScore := 0
            refinementScore := 0, thoughtfulnessScore := 0, finalScore := 0 }
        patterns :=
          { immediateCommit := true, multiSessionReview := false
            crossToolCollaboration := false, incrementalRefinement := false
            multipleEditSessions := false, pausesForReflection := false
            commentaryAdded := false, codeRestructuring := false
            testingEvidence := false }
        evidence := { editTimeline := [], pauseAnalysis := [], refinementExamples := [] }
        qualityLevel := .immediateCommit
        confidence := 1 } := rfl

/-- Claim C5: the engine's typing-speed heuristic agrees with the reference
definition of the spec on every configuration and event list. -/
theorem calculateTypingSpeedScore_matches_reference (config : AIDetectionConfig)
    (changes : List EnhancedChangeEvent) :
    calculateTypingSpeedScore config changes = typingSpeedScoreRef config changes := by
  unfold calculateTypingSpeedScore typingSpeedScoreRef
  simp only [listMeanQ, List.countP_eq_length_filter, List.isEmpty_iff]

theorem engineTotalScore_base :
    engineTotalScore DEFAULT_AI_DETECTION_CONFIG [baseEvent] = 0 := by
  norm_num [engineTotalScore, totalWeightedScore, combineScores, calculateHeuristicScores,
    calculateBulkInsertionScore, calculateTypingSpeedScore, calculatePastePatternScore,
    calculateExternalToolScore, calculateContentPatternScore, calculateTimingAnomalyScore,
    sigDetected, sigConfidence, DEFAULT_AI_DETECTION_CONFIG, baseEvent,
    List.filter_cons, List.filter_nil]

theorem engineTotalScore_assisted :
    engineTotalScore DEFAULT_AI_DETECTION_CONFIG [assistedEvent 0, assistedEvent 1000] = 1/2 := by
  norm_num [engineTotalScore, totalWeightedScore, combineScores, calculateHeuristicScores,
    calculateBulkInsertionScore, calculateTypingSpeedScore, calculatePastePatternScore,
    calculateExternalToolScore, calculateContentPatternScore, calculateTimingAnomalyScore,
    sigDetected, sigConfidence, DEFAULT_AI_DETECTION_CONFIG, assistedEvent, baseEvent,
    claudeSig, List.filter_cons, List.filter_nil]

theorem engineTotalScore_generated :
    engineTotalScore DEFAULT_AI_DETECTION_CONFIG [generatedEvent 0, generatedEvent 1000] = 7/10 := by
  norm_num [engineTotalScore, totalWeightedScore, combineScores, calculateHeuristicScores,
    calculateBulkInsertionScore, calculateTypingSpeedScore, calculatePastePatternScore,
    calculateExternalToolScore, calculateContentPatternScore, calculateTimingAnomalyScore,
    sigDetected, sigConfidence, DEFAULT_AI_DETECTION_CONFIG, generatedEvent, assistedEvent,
    baseEvent, claudeSig, List.filter_cons, List.filter_nil]

theorem engineTotalScore_paste :
    engineTotalScore DEFAULT_AI_DETECTION_CONFIG [pasteEvent 0, pasteEvent 1000] = 9/10 := by
  norm_num [engineTotalScore, totalWeightedScore, combineScores, calculateHeuristicScores,
    calculateBulkInsertionScore, calculateTypingSpeedScore, calculatePastePatternScore,
    calculateExternalToolScore, calculateContentPatternScore, calculateTimingAnomalyScore,
    sigDetected, sigConfidence, DEFAULT_AI_DETECTION_CONFIG, pasteEvent, generatedEvent,
    assistedEvent, baseEvent, claudeSig, List.filter_cons, List.filter_nil]

/-- Claim C3: with the three classification cutoffs in (weak) order, the
pre-override classification of the total weighted score follows the four
first-match rules of the spec: below `humanThreshold` → human with
confidence `1 − totalScore`; in `[humanThreshold, aiAssistedThreshold)` →
ai-assisted with fixed confidence 0.8; in
`[aiAssistedThreshold, aiGeneratedThreshold)` → ai-generated with confidence
`totalScore`; at or above `aiGeneratedThreshold` → ai-generated with
aiProbability `min(totalScore + 0.1, 1)`; aiProbability is `totalScore` in
the first three cases. -/
theorem classification_first_match_rules (config : AIDetectionConfig)
    (changes : List EnhancedChangeEvent)
    (hha : config.classification.humanThreshold ≤ config.classification.aiAssistedThreshold)
    (hag : config.classification.aiAssistedThreshold ≤ config.classification.aiGeneratedThreshold) :
    (engineTotalScore config changes < config.classification.humanThreshold →
      classifyByThresholds config (engineTotalScore config changes) =
        { source := .human, confidence := 1 - engineTotalScore config changes
          aiProbability := engineTotalScore config changes }) ∧
    (config.classification.humanThreshold ≤ engineTotalScore config changes →
      engineTotalScore config changes < config.classification.aiAssistedThreshold →
      classifyByThresholds config (engineTotalScore config changes) =
        { source := .aiAssisted, confidence := 4/5
          aiProbability := engineTotalScore config changes }) ∧
    (config.classification.aiAssistedThreshold ≤ engineTotalScore config changes →
      engineTotalScore config changes < config.classification.aiGeneratedThreshold →
      classifyByThresholds config (engineTotalScore config changes) =
        { source := .aiGenerated, confidence := engineTotalScore config changes
          aiProbability := engineTotalScore config changes }) ∧
    (config.classification.aiGeneratedThreshold ≤ engineTotalScore config changes →
      classifyByThresholds config (engineTotalScore config changes) =
        { source := .aiGenerated, confidence := engineTotalScore config changes
          aiProbability := min (engineTotalScore config changes + 1/10) 1 }) := by
  refine ⟨fun h1 => ?_, fun h1 h2 => ?_, fun h1 h2 => ?_, fun h1 => ?_⟩
  · simp only [classifyByThresholds]
    rw [if_pos h1]
  · simp only [classifyByThresholds]
    rw [if_neg (not_lt.mpr h1), if_pos h2]
  · simp only [classifyByThresholds]
    rw [if_neg (not_lt.mpr (le_trans hha h1)), if_neg (not_lt.mpr h1), if_pos h2]
  · simp only [classifyByThresholds]
    rw [if_neg (not_lt.mpr (le_trans hha (le_trans hag h1))),
      if_neg (not_lt.mpr (le_trans hag h1)), if_neg (not_lt.mpr h1)]

/-- Witness for C3: under the default configuration, concrete event lists with
total scores 0, 1/2, 7/10 and 9/10 hit the four branches. -/
theorem classification_first_match_rules_witness :
    (classifyByThresholds DEFAULT_AI_DETECTION_CONFIG
        (engineTotalScore DEFAULT_AI_DETECTION_CONFIG [baseEvent]) =
      { source := .human
        confidence := 1 - engineTotalScore DEFAULT_AI_DETECTION_CONFIG [baseEvent]
        aiProbability := engineTotalScore DEFAULT_AI_DETECTION_CONFIG [baseEvent] }) ∧
    (classifyByThresholds DEFAULT_AI_DETECTION_CONFIG
        (engineTotalScore DEFAULT_AI_DETECTION_CONFIG [assistedEvent 0, assistedEvent 1000]) =
      { source := .aiAssisted, confidence := 4/5
        aiProbability :=
          engineTotalScore DEFAULT_AI_DETECTION_CONFIG [assistedEvent 0, assistedEvent 1000] }) ∧
    (classifyByThresholds DEFAULT_AI_DETECTION_CONFIG
        (engineTotalScore DEFAULT_AI_DETECTION_CONFIG [generatedEvent 0, generatedEvent 1000]) =
      { source := .aiGenerated
        confidence :=
          engineTotalScore DEFAULT_AI_DETECTION_CONFIG [generatedEvent 0, generatedEvent 1000]
        aiProbability :=
          engineTotalScore DEFAULT_AI_DETECTION_CONFIG [generatedEvent 0, generatedEvent 1000] }) ∧
    (classifyByThresholds DEFAULT_AI_DETECTION_CONFIG
        (engineTotalScore DEFAULT_AI_DETECTION_CONFIG [pasteEvent 0, pasteEvent 1000]) =
      { source := .aiGenerated
        confidence := engineTotalScore DEFAULT_AI_DETECTION_CONFIG [pasteEvent 0, pasteEvent 1000]
        aiProbability :=
          min (engineTotalScore DEFAULT_AI_DETECTION_CONFIG [pasteEvent 0, pasteEvent 1000] + 1/10)
            1 }) :=
  ⟨(classification_first_match_rules DEFAULT_AI_DETECTION_CONFIG [baseEvent]
      (by norm_num [DEFAULT_AI_DETECTION_CONFIG])
      (by norm_num [DEFAULT_AI_DETECTION_CONFIG])).1
      (by rw [engineTotalScore_base]; norm_num [DEFAULT_AI_DETECTION_CONFIG]),
   (classification_first_match_rules DEFAULT_AI_DETECTION_CONFIG [assistedEvent 0, assistedEvent 1000]
      (by norm_num [DEFAULT_AI_DETECTION_CONFIG])
      (by norm_num [DEFAULT_AI_DETECTION_CONFIG])).2.1
      (by rw [engineTotalScore_assisted]; norm_num [DEFAULT_AI_DETECTION_CONFIG])
      (by rw [engineTotalScore_assisted]; norm_num [DEFAULT_AI_DETECTION_CONFIG]),
   (classification_first_match_rules DEFAULT_AI_DETECTION_CONFIG [generatedEvent 0, generatedEvent 1000]
      (by norm_num [DEFAULT_AI_DETECTION_CONFIG])
      (by norm_num [DEFAULT_AI_DETECTION_CONFIG])).2.2.1
      (by rw [engineTotalScore_generated]; norm_num [DEFAULT_AI_DETECTION_CONFIG])
      (by rw [engineTotalScore_generated]; norm_num [DEFAULT_AI_DETECTION_CONFIG]),
   (classification_first_match_rules DEFAULT_AI_DETECTION_CONFIG [pasteEvent 0, pasteEvent 1000]
      (by norm_num [DEFAULT_AI_DETECTION_CONFIG])
      (by norm_num [DEFAULT_AI_DETECTION_CONFIG])).2.2.2
      (by rw [engineTotalScore_paste]; norm_num [DEFAULT_AI_DETECTION_CONFIG])⟩

theorem makeFinalDecision_eq (config : AIDetectionConfig) (ws : List WeightedScore)
    (changes : List EnhancedChangeEvent) :
    makeFinalDecision config ws changes =
      if hasHumanIndicators config changes && hasAIIndicators config changes &&
          decide ((classifyByThresholds config (totalWeightedScore ws)).source ≠ .human) then
        { source := .mixed
          confidence := min (classifyByThresholds config (totalWeightedScore ws)).confidence (4/5)
          aiProbability := (classifyByThresholds config (totalWeightedScore ws)).aiProbability }
      else classifyByThresholds config (totalWeightedScore ws) := rfl

theorem classifyByThresholds_source_ne_mixed (config : AIDetectionConfig) (t : ℚ) :
    (classifyByThresholds config t).source ≠ .mixed := by
  unfold classifyByThresholds
  split_ifs <;> simp

/-- Claim C4: `analyze` overrides the classification to `mixed` with
confidence capped at `min(confidence, 0.8)` exactly when some event is a
human indicator (positive typing speed below `fastTypingSpeed` and
`contentLength < 50`), some event is an AI indicator (detected external
signature, or `contentLength > bulkInsertionSize` with
`timeSinceLastChange < pasteTimeThreshold`), and the threshold-based
classification was not human. -/
theorem mixed_override_iff (config : AIDetectionConfig)
    (changes : List EnhancedChangeEvent) :
    ((analyze config changes).source = .mixed ∧
     (analyze config changes).confidence =
       min (classifyByThresholds config (engineTotalScore config changes)).confidence (4/5)) ↔
    (hasHumanIndicators config changes = true ∧ hasAIIndicators config changes = true ∧
     (classifyByThresholds config (engineTotalScore config changes)).source ≠ .human) := by
  cases changes with
  | nil => simp [analyze, createEmptyAttribution, hasHumanIndicators]
  | cons c cs =>
    have hts : classifyByThresholds config (engineTotalScore config (c :: cs)) =
        classifyByThresholds config
          (totalWeightedScore (combineScores config (calculateHeuristicScores config (c :: cs)))) :=
      rfl
    rw [analyze_cons]
    dsimp only
    rw [makeFinalDecision_eq, hts]
    have hmix := classifyByThresholds_source_ne_mixed config
      (totalWeightedScore (combineScores config (calculateHeuristicScores config (c :: cs))))
    by_cases hH : hasHumanIndicators config (c :: cs) = true
    · by_cases hA : hasAIIndicators config (c :: cs) = true
      · by_cases hs :
          (classifyByThresholds config
            (totalWeightedScore (combineScores config (calculateHeuristicScores config (c :: cs))))).source =
            .human
        · simp [hH, hA, hs, hmix]
        · simp [hH, hA, hs, hmix]
      · simp [hH, hA, hmix]
    · simp [hH, hmix]

/-- Claim C9: with the six raw heuristic scores fixed and non-negative,
raising any single weight while the other five stay fixed never decreases the
combined `totalScore`. -/
theorem totalScore_monotone_in_single_weight (hs : HeuristicScores)
    (c c' : AIDetectionConfig)
    (h1 : 0 ≤ hs.bulkInsertionScore) (h2 : 0 ≤ hs.typingSpeedScore)
    (h3 : 0 ≤ hs.pastePatternScore) (h4 : 0 ≤ hs.externalToolScore)
    (h5 : 0 ≤ hs.contentPatternScore) (h6 : 0 ≤ hs.timingAnomalyScore) :
    (c.weights.bulkInsertionScore ≤ c'.weights.bulkInsertionScore →
     c.weights.typingSpeedScore = c'.weights.typingSpeedScore →
     c.weights.pastePatternScore = c'.weights.pastePatternScore →
     c.weights.externalToolScore = c'.weights.externalToolScore →
     c.weights.contentPatternScore = c'.weights.contentPatternScore →
     c.weights.timingAnomalyScore = c'.weights.timingAnomalyScore →
     totalWeightedScore (combineScores c hs) ≤ totalWeightedScore (combineScores c' hs)) ∧
    (c.weights.typingSpeedScore ≤ c'.weights.typingSpeedScore →
     c.weights.bulkInsertionScore = c'.weights.bulkInsertionScore →
     c.weights.pastePatternScore = c'.weights.pastePatternScore →
     c.weights.externalToolScore = c'.weights.externalToolScore →
     c.weights.contentPatternScore = c'.weights.contentPatternScore →
     c.weights.timingAnomalyScore = c'.weights.timingAnomalyScore →
     totalWeightedScore (combineScores c hs) ≤ totalWeightedScore (combineScores c' hs)) ∧
    (c.weights.pastePatternScore ≤ c'.weights.pastePatternScore →
     c.weights.bulkInsertionScore = c'.weights.bulkInsertionScore →
     c.weights.typingSpeedScore = c'.weights.typingSpeedScore →
     c.weights.externalToolScore = c'.weights.externalToolScore →
     c.weights.contentPatternScore = c'.weights.contentPatternScore →
     c.weights.timingAnomalyScore = c'.weights.timingAnomalyScore →
     totalWeightedScore (combineScores c hs) ≤ totalWeightedScore (combineScores c' hs)) ∧
    (c.weights.externalToolScore ≤ c'.weights.externalToolScore →
     c.weights.bulkInsertionScore = c'.weights.bulkInsertionScore →
     c.weights.typingSpeedScore = c'.weights.typingSpeedScore →
     c.weights.pastePatternScore = c'.weights.pastePatternScore →
     c.weights.contentPatternScore = c'.weights.contentPatternScore →
     c.weights.timingAnomalyScore = c'.weights.timingAnomalyScore →
     totalWeightedScore (combineScores c hs) ≤ totalWeightedScore (combineScores c' hs)) ∧
    (c.weights.contentPatternScore ≤ c'.weights.contentPatternScore →
     c.weights.bulkInsertionScore = c'.weights.bulkInsertionScore →
     c.weights.typingSpeedScore = c'.weights.typingSpeedScore →
     c.weights.pastePatternScore = c'.weights.pastePatternScore →
     c.weights.externalToolScore = c'.weights.externalToolScore →
     c.weights.timingAnomalyScore = c'.weights.timingAnomalyScore →
     totalWeightedScore (combineScores c hs) ≤ totalWeightedScore (combineScores c' hs)) ∧
    (c.weights.timingAnomalyScore ≤ c'.weights.timingAnomalyScore →
     c.weights.bulkInsertionScore = c'.weights.bulkInsertionScore →
     c.weights.typingSpeedScore = c'.weights.typingSpeedScore →
     c.weights.pastePatternScore = c'.weights.pastePatternScore →
     c.weights.externalToolScore = c'.weights.externalToolScore →
     c.weights.contentPatternScore = c'.weights.contentPatternScore →
     totalWeightedScore (combineScores c hs) ≤ totalWeightedScore (combineScores c' hs)) := by
  refine ⟨fun hw e1 e2 e3 e4 e5 => ?_, fun hw e1 e2 e3 e4 e5 => ?_,
    fun hw e1 e2 e3 e4 e5 => ?_, fun hw e1 e2 e3 e4 e5 => ?_,
    fun hw e1 e2 e3 e4 e5 => ?_, fun hw e1 e2 e3 e4 e5 => ?_⟩ <;>
    simp only [totalWeightedScore, combineScores, List.map_cons, List.map_nil,
      List.sum_cons, List.sum_nil] <;>
    rw [e1, e2, e3, e4, e5]
  · have key := mul_le_mul_of_nonneg_left hw h1
    linarith
  · have key := mul_le_mul_of_nonneg_left hw h2
    linarith
  · have key := mul_le_mul_of_nonneg_left hw h3
    linarith
  · have key := mul_le_mul_of_nonneg_left hw h4
    linarith
  · have key := mul_le_mul_of_nonneg_left hw h5
    linarith
  · have key := mul_le_mul_of_nonneg_left hw h6
    linarith

/-- Witness for C9: raising the default bulk-insertion weight from 1/4 to 1/2
with all raw scores at 1/2 does not decrease the total. -/
theorem totalScore_monotone_witness :
    totalWeightedScore (combineScores DEFAULT_AI_DETECTION_CONFIG halfScores) ≤
      totalWeightedScore (combineScores bumpedConfig halfScores) :=
  (totalScore_monotone_in_single_weight halfScores DEFAULT_AI_DETECTION_CONFIG bumpedConfig
    (by norm_num [halfScores]) (by norm_num [halfScores]) (by norm_num [halfScores])
    (by norm_num [halfScores]) (by norm_num [halfScores]) (by norm_num [halfScores])).1
    (by norm_num [DEFAULT_AI_DETECTION_CONFIG, bumpedConfig]) rfl rfl rfl rfl rfl

/-- Claim C10: on a non-empty list, the timeline's `vsCodeEvents` is the
entire input list (not only editor-origin events), and every event with a
detected external signature additionally appears, projected, in
`externalEvents` — the two lists overlap rather than partitioning the
input. -/
theorem timeline_overlap (config : AIDetectionConfig)
    (changes : List EnhancedChangeEvent) (h : changes ≠ []) :
    (analyze config changes).timeline.vsCodeEvents = changes ∧
    ∀ c ∈ changes, sigDetected c = true →
      projectExternalEvent c ∈ (analyze config changes).timeline.externalEvents := by
  cases changes with
  | nil => exact absurd rfl h
  | cons c0 cs =>
    rw [analyze_cons]
    dsimp only
    refine ⟨rfl, fun c hc hd => ?_⟩
    simp only [extractTimeline]
    exact List.mem_map_of_mem _ (List.mem_filter.mpr ⟨hc, hd⟩)

/-- Witness for C10: a single detected event appears both as the whole
`vsCodeEvents` list and, projected, in `externalEvents`. -/
theorem timeline_overlap_witness :
    (analyze DEFAULT_AI_DETECTION_CONFIG [assistedEvent 0]).timeline.vsCodeEvents =
      [assistedEvent 0] ∧
    projectExternalEvent (assistedEvent 0) ∈
      (analyze DEFAULT_AI_DETECTION_CONFIG [assistedEvent 0]).timeline.externalEvents :=
  ⟨(timeline_overlap DEFAULT_AI_DETECTION_CONFIG [assistedEvent 0] (by simp)).1,
   (timeline_overlap DEFAULT_AI_DETECTION_CONFIG [assistedEvent 0] (by simp)).2
     (assistedEvent 0) (by simp) rfl⟩

theorem getPath_two (v : JsValue) (k1 k2 : String) :
    getPath v [k1, k2] = optField (v.getField k1) k2 := by
  cases h : v.getField k1 with
  | none => simp [getPath, h, optField]
  | some w =>
    cases h2 : w.getField k2 with
    | none => simp [getPath, h, h2, optField]
    | some u => simp [getPath, h, h2, optField]

/-- A group check of the validator (`typeof g === 'object' && g !== null`
followed by per-key numeric checks) is redundant: if the group is not a
non-null object every key lookup is `undefined` and the first numeric check
already fails. -/
theorem objGroup (f : Option JsValue → Bool) (hf : f none = false)
    (o : Option JsValue) (k : String) (ks : List String) :
    (optIsNonNullObject o && (k :: ks).all fun key => f (optField o key)) =
    ((k :: ks).all fun key => f (optField o key)) := by
  cases o with
  | none => simp [optIsNonNullObject, optField, hf]
  | some w =>
    cases w with
    | jobj fs => simp only [optIsNonNullObject, JsValue.isNonNullObject, Bool.true_and]
    | jnull => simp [optIsNonNullObject, optField, Option.bind, JsValue.getField, hf]
    | jbool b => simp [optIsNonNullObject, optField, Option.bind, JsValue.getField, hf]
    | jnum q => simp [optIsNonNullObject, optField, Option.bind, JsValue.getField, hf]
    | jstr s => simp [optIsNonNullObject, optField, Option.bind, JsValue.getField, hf]

/-- The classification group of the validator agrees with the claim's view:
the object check is subsumed by the per-key number checks, and on numbers
`!(h >= a || a >= g)` is the strict order `h < a && a < g`. -/
theorem clsGroup (o : Option JsValue) :
    ((optIsNonNullObject o &&
       (["humanThreshold", "aiAssistedThreshold", "aiGeneratedThreshold"].all fun key =>
         optNumIn01 (optField o key))) &&
      !(optNumGE (optField o "humanThreshold") (optField o "aiAssistedThreshold") ||
        optNumGE (optField o "aiAssistedThreshold") (optField o "aiGeneratedThreshold"))) =
    ((["humanThreshold", "aiAssistedThreshold", "aiGeneratedThreshold"].all fun key =>
        optNumIn01 (optField o key)) &&
      (match optField o "humanThreshold", optField o "aiAssistedThreshold",
          optField o "aiGeneratedThreshold" with
       | some (.jnum h), some (.jnum a), some (.jnum g) => decide (h < a) && decide (a < g)
       | _, _, _ => false)) := by
  cases o with
  | none => simp [optIsNonNullObject, optField, optNumIn01]
  | some w =>
    cases w with
    | jnull => simp [optIsNonNullObject, optField, Option.bind, JsValue.getField, optNumIn01]
    | jbool b => simp [optIsNonNullObject, optField, Option.bind, JsValue.getField, optNumIn01]
    | jnum q => simp [optIsNonNullObject, optField, Option.bind, JsValue.getField, optNumIn01]
    | jstr s => simp [optIsNonNullObject, optField, Option.bind, JsValue.getField, optNumIn01]
    | jobj cfs =>
      simp only [optIsNonNullObject, JsValue.isNonNullObject, Bool.true_and, optField,
        Option.bind, JsValue.getField]
      rcases h1 : cfs.lookup "humanThreshold" with _ | (_ | b1 | h | s1 | f1) <;>
        rcases h2 : cfs.lookup "aiAssistedThreshold" with _ | (_ | b2 | a | s2 | f2) <;>
          rcases h3 : cfs.lookup "aiGeneratedThreshold" with _ | (_ | b3 | g | s3 | f3) <;>
            simp [h1, h2, h3, optNumIn01, optNumGE, Bool.not_or, ← decide_not, not_le]

theorem validate_eq_claim (v : JsValue) :
    validateAIDetectionConfig v = configClaimAccepts v := by
  cases v with
  | jnull => rfl
  | jbool b => rfl
  | jnum q => rfl
  | jstr s => rfl
  | jobj fields =>
    unfold validateAIDetectionConfig configClaimAccepts
    simp only [getPath_two, JsValue.isNonNullObject, Bool.true_and,
      requiredWeightKeys, requiredThresholdKeys, requiredClassificationKeys]
    rw [objGroup optNumIn01 rfl, objGroup optNumNonneg rfl, clsGroup]
    simp only [Bool.and_assoc]

/-- Claim C8: `validateAIDetectionConfig` accepts a value exactly when it is a
non-null object whose six heuristic weights are numbers in [0,1], whose five
thresholds are numbers ≥ 0, and whose three classification cutoffs are
numbers in [0,1] in strictly increasing order; everything else is
rejected. -/
theorem validateAIDetectionConfig_iff_claim (v : JsValue) :
    validateAIDetectionConfig v = true ↔ configClaimAccepts v = true := by
  rw [validate_eq_claim]
